import Mathlib

/-!
Shallow embedding of the beat-synchronized assembly engine of
`music_video_maker.py` (class `VideoProcessor`), together with theorems
settling the specification claims about it.

Times and durations are modelled as rationals.  The external librosa
primitives (onset-strength, tempo estimation, beat tracking, onset
detection) are abstracted as an explicit record of functions, since the
source only fixes which arguments are passed to them and in what order.
-/

namespace MusicVideoMaker

/-- `sensitivity_scale = self.beat_sensitivity / 100.0` (line 84). -/
def sensitivityScale (s : ℚ) : ℚ := s / 100

/-- `onset_env = onset_env * sensitivity_scale` (line 85): pointwise scaling
of the onset-strength envelope. -/
def scaleEnv (scale : ℚ) (env : List ℚ) : List ℚ := env.map (fun x => x * scale)

/-- Abstract librosa primitives, as used by `VideoProcessor.run`:
`tempoFn env` models `librosa.beat.tempo(onset_envelope=env, sr=sr)[0]`;
`beatTrack env bpm` models `librosa.frames_to_time` applied to the frames of
`librosa.beat.beat_track(onset_envelope=env, ..., start_bpm=bpm)`;
`onsetDetect env wait` models `librosa.frames_to_time` applied to
`librosa.onset.onset_detect(onset_envelope=env, wait=wait, ...)`. -/
structure LibrosaPrims where
  tempoFn : List ℚ → ℚ
  beatTrack : List ℚ → ℚ → List ℚ
  onsetDetect : List ℚ → ℚ → List ℚ

/-- The `start_bpm` argument passed to `librosa.beat.beat_track` (line 95):
the code computes it on `onset_env` *after* line 85 has already replaced
`onset_env` by the scaled envelope. -/
def startBpm (P : LibrosaPrims) (env : List ℚ) (s : ℚ) : ℚ :=
  P.tempoFn (scaleEnv (sensitivityScale s) env)

/-- `beat_times` (lines 90-100): beat tracking over the scaled envelope,
seeded with `startBpm`. -/
def beatTimes (P : LibrosaPrims) (env : List ℚ) (s : ℚ) : List ℚ :=
  P.beatTrack (scaleEnv (sensitivityScale s) env) (startBpm P env s)

/-- `onset_times` (lines 103-112): onset detection over the scaled envelope
with `wait = 0.1 / sensitivity_scale`. -/
def onsetTimes (P : LibrosaPrims) (env : List ℚ) (s : ℚ) : List ℚ :=
  P.onsetDetect (scaleEnv (sensitivityScale s) env) (1 / 10 / sensitivityScale s)

/-- `all_times = np.sort(np.unique(np.concatenate([beat_times, onset_times])))`
(line 118): concatenate, drop duplicates, sort ascending. -/
def allTimes (P : LibrosaPrims) (env : List ℚ) (s : ℚ) : List ℚ :=
  ((beatTimes P env s ++ onsetTimes P env s).dedup).mergeSort (· ≤ ·)

/-- `min_interval = 0.1 / sensitivity_scale` (line 121). -/
def minInterval (s : ℚ) : ℚ := 1 / 10 / sensitivityScale s

/-- The loop of lines 123-125: given the last kept timestamp `last`, keep `t`
iff `t - last ≥ min_interval`. -/
def filterTimesAux (minI : ℚ) (last : ℚ) : List ℚ → List ℚ
  | [] => []
  | t :: ts =>
    if minI ≤ t - last then t :: filterTimesAux minI t ts
    else filterTimesAux minI last ts

/-- Lines 122-125: `filtered_times = [all_times[0]]` followed by the greedy
spacing filter.  On an empty list `all_times[0]` raises `IndexError`
(caught by the surrounding `except`), modelled by `none`. -/
def filterTimes (minI : ℚ) : List ℚ → Option (List ℚ)
  | [] => none
  | t :: ts => some (t :: filterTimesAux minI t ts)

/-- Lines 122-141 combined: the filtered timestamps with the audio duration
appended unconditionally (`beat_times = np.append(beat_times, audio_duration)`,
line 141). -/
def cutPlan (minI : ℚ) (times : List ℚ) (audioDuration : ℚ) : Option (List ℚ) :=
  (filterTimes minI times).map (fun kept => kept ++ [audioDuration])

/-- The whole cut-planning stage of `run` for a given audio input:
detection, merge, spacing filter, terminal boundary. -/
def computeCutPlan (P : LibrosaPrims) (env : List ℚ) (s audioDuration : ℚ) :
    Option (List ℚ) :=
  cutPlan (minInterval s) (allTimes P env s) audioDuration

/-- One scheduled segment: `clip` is the pool index `clip_index % len(clips)`,
`segStart`/`segDur` give the sub-range taken from the source clip (for a
looped segment the loop target duration), `looped` records whether
`current_clip.loop(duration=...)` was used. -/
structure Segment where
  clip : ℕ
  segStart : ℚ
  segDur : ℚ
  looped : Bool
deriving DecidableEq, Repr

/-- The fit policy of lines 148-161 for a clip of duration `c`, an interval of
length `d` and a random draw `r` (the value returned by
`random.uniform(0, max_start)` when that branch runs). -/
def fitSegment (idx : ℕ) (c d r : ℚ) : Segment :=
  if c < d then
    if d / 2 ≤ c then ⟨idx, 0, d, true⟩
    else ⟨idx, 0, c, false⟩
  else
    if 0 < c - d then ⟨idx, r, d, false⟩
    else ⟨idx, 0, d, false⟩

/-- Consecutive boundary pairs `(t_i, t_{i+1})` of the cut plan (the loop
`for i in range(len(beat_times) - 1)`, line 142). -/
def intervalPairs (bounds : List ℚ) : List (ℚ × ℚ) := bounds.zip bounds.tail

/-- The scheduling loop of lines 142-170: skip non-positive intervals
(`continue`, line 146) without advancing `clip_index`; otherwise emit a
segment for `clips[clip_index % len(clips)]` and advance `clip_index`.
`clips` is the list of clip durations; `rand` supplies the random draw
available to each emission. -/
def scheduleAux (clips : List ℚ) (rand : ℕ → ℚ) :
    List (ℚ × ℚ) → ℕ → List Segment
  | [], _ => []
  | p :: rest, clipIndex =>
    if p.2 - p.1 ≤ 0 then scheduleAux clips rand rest clipIndex
    else
      fitSegment (clipIndex % clips.length)
          (clips.getD (clipIndex % clips.length) 0) (p.2 - p.1) (rand clipIndex)
        :: scheduleAux clips rand rest (clipIndex + 1)

/-- The scheduler over a full boundary list, starting with `clip_index = 0`
(line 140). -/
def schedule (clips : List ℚ) (rand : ℕ → ℚ) (bounds : List ℚ) : List Segment :=
  scheduleAux clips rand (intervalPairs bounds) 0

/-- The deterministic part of a segment: assigned clip, resulting duration,
and whether it was looped (everything except the random sub-range start). -/
def segMeta (g : Segment) : ℕ × ℚ × Bool := (g.clip, g.segDur, g.looped)

/-- The durations involved in the assembly once the music track has been
attached: `videoDur` is `final_video.duration`, `attachedAudioDur` the
duration of the audio track attached to `final_video`, and `localAudioDur`
the duration of the local variable `audio`. -/
structure MuxState where
  videoDur : ℚ
  attachedAudioDur : ℚ
  localAudioDur : ℚ
deriving DecidableEq, Repr

/-- Lines 172-181: `audio = mp.AudioFileClip(self.music_path)` followed by
`final_video = final_video.set_audio(audio)` (the mute and the
no-clip-audio paths, lines 179 and 181) — the attached track and the local
variable hold the same music track. -/
def attachAudio (videoDur musicDur : ℚ) : MuxState := ⟨videoDur, musicDur, musicDur⟩

/-- Lines 182-185.  In the audio-longer branch, line 183
(`audio = audio.subclip(0, final_video.duration)`) only rebinds the local
name `audio`: moviepy clips are out-of-place and `final_video` already
holds the track attached at lines 177-181, so the audio attached to the
output is unchanged by it.  In the video-longer branch,
`final_video = final_video.subclip(0, audio.duration)` truncates the video
together with its attached audio. -/
def reconcileStep (st : MuxState) : MuxState :=
  if st.localAudioDur > st.videoDur then
    ⟨st.videoDur, st.attachedAudioDur, st.videoDur⟩
  else if st.localAudioDur < st.videoDur then
    ⟨st.localAudioDur, min st.attachedAudioDur st.localAudioDur, st.localAudioDur⟩
  else st

/-- The duration of the written file: `write_videofile` (lines 190-198)
renders `final_video.duration` worth of video and audio. -/
def outputDuration (videoDur musicDur : ℚ) : ℚ :=
  (reconcileStep (attachAudio videoDur musicDur)).videoDur

/-- `_get_resolution_dimensions` (lines 259-265). -/
def resolutionDims (res : String) : ℕ × ℕ :=
  if res = "1080p" then (1920, 1080)
  else if res = "720p" then (1280, 720)
  else (854, 480)

/-- `_get_target_dimensions` (lines 249-257). -/
def targetDims (aspect res : String) : ℕ × ℕ :=
  if aspect = "16:9" then resolutionDims res
  else if aspect = "1:1" then
    (min (resolutionDims res).1 (resolutionDims res).2,
     min (resolutionDims res).1 (resolutionDims res).2)
  else ((resolutionDims res).2, (resolutionDims res).1)

/-- The result of `_resize_clip` (lines 215-247) on a clip of pixel size
`cw × ch`: the output canvas is the `ColorClip` of exactly the target size
(first clip of the `CompositeVideoClip`, so the composite inherits its size);
`newW`/`newH` are the `int(...)`-truncated scaled dimensions and
`xOff`/`yOff` the centering offsets (Python `//`, floor division). -/
structure Composited where
  outW : ℕ
  outH : ℕ
  scaleUsed : ℚ
  newW : ℤ
  newH : ℤ
  xOff : ℤ
  yOff : ℤ
deriving DecidableEq, Repr

/-- `_resize_clip` (lines 215-247). -/
def resizeClip (aspect res : String) (cw ch : ℚ) : Composited :=
  ⟨(targetDims aspect res).1, (targetDims aspect res).2,
   min (((targetDims aspect res).1 : ℚ) / cw) (((targetDims aspect res).2 : ℚ) / ch),
   ⌊cw * min (((targetDims aspect res).1 : ℚ) / cw) (((targetDims aspect res).2 : ℚ) / ch)⌋,
   ⌊ch * min (((targetDims aspect res).1 : ℚ) / cw) (((targetDims aspect res).2 : ℚ) / ch)⌋,
   Int.fdiv (((targetDims aspect res).1 : ℤ) -
     ⌊cw * min (((targetDims aspect res).1 : ℚ) / cw) (((targetDims aspect res).2 : ℚ) / ch)⌋) 2,
   Int.fdiv (((targetDims aspect res).2 : ℤ) -
     ⌊ch * min (((targetDims aspect res).1 : ℚ) / cw) (((targetDims aspect res).2 : ℚ) / ch)⌋) 2⟩

/-- The observable facts about the run prefix before clip loading:
whether the music path is a file, whether the two directories exist, and the
entries of `os.listdir(self.input_dir)`. -/
structure RunConfig where
  musicIsFile : Bool
  inputDirExists : Bool
  outputDirExists : Bool
  dirEntries : List String
deriving DecidableEq, Repr

/-- The effectful steps of the run prefix, in the order `run` performs them:
input validation (line 68), directory listing (line 70), audio decode
(line 78). -/
inductive RunEvent where
  | validate
  | listDir
  | loadAudio
deriving DecidableEq, Repr

/-- The filter of line 71: `f.lower().endswith(('.mp4', '.avi', '.mov', '.mkv'))`. -/
def isVideoFile (f : String) : Bool :=
  f.toLower.endsWith ".mp4" || f.toLower.endsWith ".avi" ||
  f.toLower.endsWith ".mov" || f.toLower.endsWith ".mkv"

/-- `_validate_inputs` (lines 203-213): the first failing check's error
message, or `none` when all three pass. -/
def validateInputs (c : RunConfig) : Option String :=
  if c.musicIsFile = false then some "Invalid music file"
  else if c.inputDirExists = false then some "Invalid input directory"
  else if c.outputDirExists = false then some "Invalid output directory"
  else none

/-- The outcome of the run prefix: either an emitted error message or
progression to the analysis stage. -/
inductive RunOutcome where
  | error (msg : String)
  | proceed
deriving DecidableEq, Repr

/-- Lines 66-78 of `run`: validation, then clip enumeration with the
`len(video_files) < 2` check, then the audio decode; paired with the trace
of effectful steps actually performed. -/
def runChecks (c : RunConfig) : RunOutcome × List RunEvent :=
  match validateInputs c with
  | some msg => (.error msg, [.validate])
  | none =>
    if (c.dirEntries.filter isVideoFile).length < 2 then
      (.error "At least 2 video files are required", [.validate, .listDir])
    else (.proceed, [.validate, .listDir, .loadAudio])

/-- The configuration fields of a `RenderJob` that the modelled pipeline
reads. -/
structure Job where
  shuffleClips : Bool
  sensitivity : ℚ
deriving DecidableEq, Repr

/-- The run's source of randomness: the shuffle permutation applied by
`random.shuffle` (line 137) and the stream of `random.uniform` draws
(line 158). -/
structure RandSource where
  shufflePerm : List ℚ → List ℚ
  offsets : ℕ → ℚ

/-- The analysis-and-scheduling pipeline of `run` (lines 81-170) for a given
decoded audio input (`env`, `audioDuration`), clip pool (`clips`, durations in
enumeration order) and job configuration.  An empty merged timestamp list
makes line 122 raise `IndexError`, surfaced through the `except` handler as
an error. -/
def pipeline (P : LibrosaPrims) (env : List ℚ) (audioDuration : ℚ)
    (clips : List ℚ) (j : Job) (R : RandSource) :
    Except String (List ℚ × List Segment) :=
  match computeCutPlan P env j.sensitivity audioDuration with
  | none => .error "index 0 is out of bounds for axis 0 with size 0"
  | some plan =>
    .ok (plan, schedule (if j.shuffleClips then R.shufflePerm clips else clips)
                 R.offsets plan)

/-- A tempo primitive that is not invariant under scaling of the envelope,
used to exhibit the order of operations at line 95. -/
def cexPrims : LibrosaPrims := ⟨fun l => l.headD 0, fun _ _ => [], fun _ _ => []⟩

/-- Primitives returning no beats and no onsets. -/
def ePrims : LibrosaPrims := ⟨fun _ => 0, fun _ _ => [], fun _ _ => []⟩

/-- Primitives with a fixed beat pair, for exercising the pipeline. -/
def wPrims : LibrosaPrims := ⟨fun _ => 120, fun _ _ => [0, 1], fun _ _ => []⟩

/-- A job with shuffling disabled and sensitivity 15 (the UI default). -/
def wJob : Job := ⟨false, 15⟩

/-- Two random sources differing only in their uniform draws. -/
def wRand1 : RandSource := ⟨id, fun _ => 1 / 2⟩

/-- Second random source, different draws. -/
def wRand2 : RandSource := ⟨id, fun _ => 1 / 4⟩

theorem filterTimesAux_cons (minI last t : ℚ) (ts : List ℚ) :
    filterTimesAux minI last (t :: ts) =
      if minI ≤ t - last then t :: filterTimesAux minI t ts
      else filterTimesAux minI last ts := rfl

theorem scheduleAux_cons (clips : List ℚ) (rand : ℕ → ℚ) (p : ℚ × ℚ)
    (rest : List (ℚ × ℚ)) (i : ℕ) :
    scheduleAux clips rand (p :: rest) i =
      if p.2 - p.1 ≤ 0 then scheduleAux clips rand rest i
      else
        fitSegment (i % clips.length) (clips.getD (i % clips.length) 0)
            (p.2 - p.1) (rand i)
          :: scheduleAux clips rand rest (i + 1) := rfl

theorem chain_filterTimesAux (minI : ℚ) :
    ∀ (ts : List ℚ) (last : ℚ),
      List.Chain (fun a b => minI ≤ b - a) last (filterTimesAux minI last ts) := by
  intro ts
  induction ts with
  | nil => intro last; exact List.Chain.nil
  | cons t ts ih =>
    intro last
    rw [filterTimesAux_cons]
    by_cases h : minI ≤ t - last
    · rw [if_pos h]
      exact List.Chain.cons h (ih t)
    · rw [if_neg h]
      exact ih last

theorem fitSegment_clip (idx : ℕ) (c d r : ℚ) : (fitSegment idx c d r).clip = idx := by
  unfold fitSegment
  split_ifs <;> rfl

theorem scheduleAux_clip (clips : List ℚ) (rand : ℕ → ℚ) :
    ∀ (intervals : List (ℚ × ℚ)) (i k : ℕ) (g : Segment),
      (scheduleAux clips rand intervals i)[k]? = some g →
      g.clip = (i + k) % clips.length := by
  intro intervals
  induction intervals with
  | nil =>
    intro i k g h
    simp [scheduleAux] at h
  | cons p rest ih =>
    intro i k g h
    rw [scheduleAux_cons] at h
    by_cases hd : p.2 - p.1 ≤ 0
    · rw [if_pos hd] at h
      exact ih i k g h
    · rw [if_neg hd] at h
      cases k with
      | zero =>
        simp only [List.getElem?_cons_zero, Option.some.injEq] at h
        subst h
        rw [fitSegment_clip, Nat.add_zero]
      | succ k =>
        simp only [List.getElem?_cons_succ] at h
        have hk := ih (i + 1) k g h
        have e : i + 1 + k = i + (k + 1) := by omega
        rw [e] at hk
        exact hk

theorem fitSegment_segMeta (idx : ℕ) (c d r1 r2 : ℚ) :
    segMeta (fitSegment idx c d r1) = segMeta (fitSegment idx c d r2) := by
  unfold fitSegment
  split_ifs <;> rfl

theorem scheduleAux_segMeta (clips : List ℚ) (r1 r2 : ℕ → ℚ) :
    ∀ (intervals : List (ℚ × ℚ)) (i : ℕ),
      (scheduleAux clips r1 intervals i).map segMeta
        = (scheduleAux clips r2 intervals i).map segMeta := by
  intro intervals
  induction intervals with
  | nil => intro i; rfl
  | cons p rest ih =>
    intro i
    rw [scheduleAux_cons, scheduleAux_cons]
    by_cases h : p.2 - p.1 ≤ 0
    · rw [if_pos h, if_pos h]
      exact ih i
    · rw [if_neg h, if_neg h]
      simp only [List.map_cons]
      rw [fitSegment_segMeta (i % clips.length) (clips.getD (i % clips.length) 0)
            (p.2 - p.1) (r1 i) (r2 i), ih (i + 1)]

/-- C1 (counterexample): as stated, the claim fails — the start tempo passed
to the beat tracker is computed on the already-scaled envelope (line 85
precedes line 95), so for a tempo primitive that is not scale-invariant and
sensitivity 50 it differs from the tempo of the unscaled envelope. -/
theorem C1_counterexample :
    startBpm cexPrims [2] 50 ≠ cexPrims.tempoFn [2] := by
  norm_num [startBpm, cexPrims, scaleEnv, sensitivityScale]

/-- C1 (amended): the start tempo passed to the beat tracker is the tempo
estimate computed on the envelope *after* multiplication by
`scale = s/100` — the same scaled envelope over which beat tracking itself
runs — not on the unscaled envelope. -/
theorem C1_startTempoOnScaledEnv (P : LibrosaPrims) (env : List ℚ) (s : ℚ) :
    startBpm P env s = P.tempoFn (scaleEnv (sensitivityScale s) env) ∧
    beatTimes P env s
      = P.beatTrack (scaleEnv (sensitivityScale s) env) (startBpm P env s) :=
  ⟨rfl, rfl⟩

/-- C2: the fit policy.  For an interval of length `d > 0`, a clip of
duration `c` and an admissible random draw `r`: if `c ≥ d` the segment is an
unlooped sub-range of length exactly `d` starting at the draw
`r ∈ [0, c − d]`; if `d/2 ≤ c < d` the segment loops the clip to length
exactly `d`; if `c < d/2` the segment is the full unlooped clip of duration
`c`, strictly less than `d`. -/
theorem C2_fitPolicy (c d r : ℚ) (hd : 0 < d) (hr0 : 0 ≤ r)
    (hr1 : r ≤ max (c - d) 0) :
    (d ≤ c → fitSegment 0 c d r = ⟨0, r, d, false⟩ ∧ 0 ≤ r ∧ r ≤ c - d) ∧
    (d / 2 ≤ c → c < d → fitSegment 0 c d r = ⟨0, 0, d, true⟩) ∧
    (c < d / 2 → fitSegment 0 c d r = ⟨0, 0, c, false⟩ ∧ c < d) := by
  refine ⟨?_, ?_, ?_⟩
  · intro hdc
    have hcd : ¬ c < d := not_lt.mpr hdc
    unfold fitSegment
    rw [if_neg hcd]
    by_cases h : 0 < c - d
    · rw [if_pos h]
      have hmax : max (c - d) 0 = c - d := max_eq_left (le_of_lt h)
      rw [hmax] at hr1
      exact ⟨rfl, hr0, hr1⟩
    · rw [if_neg h]
      have hcd0 : c - d = 0 := le_antisymm (not_lt.mp h) (by linarith)
      have hmax : max (c - d) 0 = 0 := by rw [hcd0]; exact max_self 0
      rw [hmax] at hr1
      have hr : r = 0 := le_antisymm hr1 hr0
      subst hr
      exact ⟨rfl, le_refl 0, by linarith⟩
  · intro h1 h2
    unfold fitSegment
    rw [if_pos h2, if_pos h1]
  · intro h
    have hcd : c < d := lt_trans h (by linarith)
    have h2 : ¬ d / 2 ≤ c := not_le.mpr h
    unfold fitSegment
    rw [if_pos hcd, if_neg h2]
    exact ⟨rfl, hcd⟩

/-- Witness for C2 at `c = 3`, `d = 1`, `r = 1/2`. -/
theorem C2_fitPolicy_witness :
    fitSegment 0 3 1 (1 / 2) = ⟨0, 1 / 2, 1, false⟩ ∧
    (0 : ℚ) ≤ 1 / 2 ∧ (1 / 2 : ℚ) ≤ 3 - 1 := by
  have h := C2_fitPolicy 3 1 (1 / 2) (by norm_num) (by norm_num)
    (by norm_num [le_max_iff])
  exact h.1 (by norm_num)

/-- C3 (the code at the failing input): with an assembled video of 1s and a
music track of 2s, the reconciliation of lines 182-185 leaves the audio
attached to the output at its full 2s duration — line 183 truncates only
the rebound dead local `audio` — so the attached audio is not truncated to
the video's length as the claim states; the written output duration still
equals `min(video, audio)` only because `write_videofile` takes its
duration from the video clip. -/
theorem C3_audioDeadStore :
    reconcileStep (attachAudio 1 2) = ⟨1, 2, 1⟩ ∧
    (reconcileStep (attachAudio 1 2)).attachedAudioDur ≠ min (1 : ℚ) 2 ∧
    outputDuration 1 2 = min (1 : ℚ) 2 := by
  refine ⟨?_, ?_, ?_⟩ <;>
    norm_num [reconcileStep, attachAudio, outputDuration]

/-- C4: whenever the planner produces a cut plan, the audio duration was
appended unconditionally after the spacing filter — the plan is exactly the
filtered list followed by the audio duration, so its last element equals the
audio duration (even when an equal timestamp already survived filtering,
which yields a zero-length final interval). -/
theorem C4_terminalBoundary (minI audioDuration : ℚ) (times plan : List ℚ)
    (h : cutPlan minI times audioDuration = some plan) :
    plan.getLast? = some audioDuration ∧
    ∃ kept, filterTimes minI times = some kept ∧ plan = kept ++ [audioDuration] := by
  unfold cutPlan at h
  cases hf : filterTimes minI times with
  | none => rw [hf] at h; simp at h
  | some kept =>
    rw [hf] at h
    have h2 : kept ++ [audioDuration] = plan := Option.some.inj h
    subst h2
    refine ⟨?_, kept, rfl, rfl⟩
    exact List.getLast?_concat kept

/-- Witness for C4: a single filtered timestamp equal to the audio duration
still gets the terminal boundary appended, giving the zero-length final
interval `[4, 4]`. -/
theorem C4_terminalBoundary_witness :
    ([4, 4] : List ℚ).getLast? = some 4 ∧
    ∃ kept, filterTimes (2 / 3) [4] = some kept ∧
      ([4, 4] : List ℚ) = kept ++ [4] :=
  C4_terminalBoundary (2 / 3) 4 [4] [4, 4] rfl

/-- C5: a boundary pair with non-positive interval length is skipped
silently — the scheduler's result is the same as without that pair, no
segment is emitted and the round-robin index does not advance — and the
`k`-th emitted segment always uses clip `pool[k mod |pool|]`. -/
theorem C5_skipAndRoundRobin (clips : List ℚ) (rand : ℕ → ℚ) :
    (∀ (t0 t1 : ℚ) (rest : List (ℚ × ℚ)) (i : ℕ), t1 - t0 ≤ 0 →
      scheduleAux clips rand ((t0, t1) :: rest) i
        = scheduleAux clips rand rest i) ∧
    (∀ (bounds : List ℚ) (k : ℕ) (g : Segment),
      (schedule clips rand bounds)[k]? = some g →
      g.clip = k % clips.length) := by
  constructor
  · intro t0 t1 rest i h
    rw [scheduleAux_cons]
    exact if_pos h
  · intro bounds k g h
    have hk := scheduleAux_clip clips rand (intervalPairs bounds) 0 k g h
    rwa [Nat.zero_add] at hk

/-- Witness for C5: the zero-length pair `(1, 1)` is dropped without
advancing the index, and the second emitted segment of the plan `[0, 1, 2]`
over the two-clip pool uses clip `1 % 2`. -/
theorem C5_skipAndRoundRobin_witness :
    scheduleAux [2, 3] (fun _ => 0) [((1 : ℚ), 1), (1, 2)] 0
      = scheduleAux [2, 3] (fun _ => 0) [((1 : ℚ), 2)] 0 ∧
    Segment.clip ⟨1, 0, 1, false⟩ = 1 % 2 := by
  have h := C5_skipAndRoundRobin [2, 3] (fun _ => 0)
  refine ⟨h.1 1 1 [(1, 2)] 0 (by norm_num), h.2 [0, 1, 2] 1 ⟨1, 0, 1, false⟩ ?_⟩
  norm_num [schedule, scheduleAux, intervalPairs, fitSegment]

/-- C6: the minimum-spacing value is `0.1/(s/100) = 10/s`, it is antitone in
the sensitivity (for `0 < s1 < s2` the spacing enforced for `s1` is ≥ that
for `s2`), and in any list produced by the greedy filter every pair of
adjacent timestamps differs by at least the minimum interval. -/
theorem C6_spacingFilter (s1 s2 : ℚ) (h0 : 0 < s1) (h12 : s1 < s2) :
    minInterval s1 = 10 / s1 ∧
    minInterval s2 ≤ minInterval s1 ∧
    ∀ (times kept : List ℚ), filterTimes (minInterval s1) times = some kept →
      kept.Chain' (fun a b => minInterval s1 ≤ b - a) := by
  have hs1 : (s1 : ℚ) ≠ 0 := ne_of_gt h0
  have hs2 : (s2 : ℚ) ≠ 0 := ne_of_gt (lt_trans h0 h12)
  have hval : ∀ s : ℚ, s ≠ 0 → minInterval s = 10 / s := by
    intro s hs
    unfold minInterval sensitivityScale
    field_simp
    ring
  refine ⟨hval s1 hs1, ?_, ?_⟩
  · have h12le : s1 ≤ s2 := le_of_lt h12
    rw [hval s1 hs1, hval s2 hs2]
    gcongr
  · intro times kept h
    cases times with
    | nil => simp [filterTimes] at h
    | cons t ts =>
      have h2 : t :: filterTimesAux (minInterval s1) t ts = kept :=
        Option.some.inj h
      subst h2
      show List.Chain (fun a b => minInterval s1 ≤ b - a) t
        (filterTimesAux (minInterval s1) t ts)
      exact chain_filterTimesAux (minInterval s1) ts t

/-- Witness for C6 at `s1 = 15`, `s2 = 30`, filtering `[0, 1/100, 1]`. -/
theorem C6_spacingFilter_witness :
    minInterval 15 = 10 / 15 ∧
    minInterval 30 ≤ minInterval 15 ∧
    List.Chain' (fun a b => minInterval 15 ≤ b - a) [0, 1] := by
  have h := C6_spacingFilter 15 30 (by norm_num) (by norm_num)
  refine ⟨h.1, h.2.1, h.2.2 [0, 1 / 100, 1] [0, 1] ?_⟩
  norm_num [filterTimes, filterTimesAux, minInterval, sensitivityScale]

/-- C7: for a fixed (aspect, resolution) configuration every composited
segment has the same output pixel dimensions regardless of the input clip's
dimensions, equal to the derived target canvas; the scale applied to the
clip is `min(target_w/clip_w, target_h/clip_h)`; the canvas is the tier's
dimensions for `16:9`, the min-square for `1:1`, the swapped tier for
`9:16`; and the three tiers are 1920×1080, 1280×720 and 854×480. -/
theorem C7_uniformCanvas (aspect res : String) (cw ch cw2 ch2 : ℚ) :
    ((resizeClip aspect res cw ch).outW, (resizeClip aspect res cw ch).outH)
      = targetDims aspect res ∧
    ((resizeClip aspect res cw ch).outW, (resizeClip aspect res cw ch).outH)
      = ((resizeClip aspect res cw2 ch2).outW, (resizeClip aspect res cw2 ch2).outH) ∧
    (resizeClip aspect res cw ch).scaleUsed
      = min (((targetDims aspect res).1 : ℚ) / cw)
          (((targetDims aspect res).2 : ℚ) / ch) ∧
    targetDims "16:9" res = resolutionDims res ∧
    targetDims "1:1" res
      = (min (resolutionDims res).1 (resolutionDims res).2,
         min (resolutionDims res).1 (resolutionDims res).2) ∧
    targetDims "9:16" res = ((resolutionDims res).2, (resolutionDims res).1) ∧
    resolutionDims "1080p" = (1920, 1080) ∧
    resolutionDims "720p" = (1280, 720) ∧
    resolutionDims "480p" = (854, 480) := by
  refine ⟨rfl, rfl, rfl, ?_, ?_, ?_, ?_, ?_, ?_⟩
  · rw [targetDims, if_pos rfl]
  · rw [targetDims, if_neg (by decide), if_pos rfl]
  · rw [targetDims, if_neg (by decide), if_neg (by decide)]
  · rw [resolutionDims, if_pos rfl]
  · rw [resolutionDims, if_neg (by decide), if_pos rfl]
  · rw [resolutionDims, if_neg (by decide), if_neg (by decide)]

/-- C8: the run performs its checks in a fixed order before any audio
decode.  Validation passes exactly when the music path is a file and both
directories exist; on a validation failure the run aborts with that error
having performed only the validation step (no listing, no decode); with
validation passed but fewer than 2 eligible clips it aborts having listed
the directory but not decoded audio; the audio decode happens only when
both checks pass. -/
theorem C8_checkOrder (c : RunConfig) :
    (validateInputs c = none ↔
      c.musicIsFile = true ∧ c.inputDirExists = true ∧ c.outputDirExists = true) ∧
    (∀ msg, validateInputs c = some msg →
      runChecks c = (.error msg, [.validate])) ∧
    (validateInputs c = none → (c.dirEntries.filter isVideoFile).length < 2 →
      runChecks c
        = (.error "At least 2 video files are required", [.validate, .listDir])) ∧
    (validateInputs c = none → ¬ (c.dirEntries.filter isVideoFile).length < 2 →
      runChecks c = (.proceed, [.validate, .listDir, .loadAudio])) := by
  refine ⟨?_, ?_, ?_, ?_⟩
  · unfold validateInputs
    rcases c with ⟨m, i, o, es⟩
    cases m <;> cases i <;> cases o <;> simp
  · intro msg hv
    unfold runChecks
    rw [hv]
  · intro hv hlt
    unfold runChecks
    rw [hv]
    simp only [if_pos hlt]
  · intro hv hge
    unfold runChecks
    rw [hv]
    simp only [if_neg hge]

/-- Witness for C8: valid inputs but an empty input directory — the run
aborts with the too-few-clips error after validating and listing, without
reaching the audio decode. -/
theorem C8_checkOrder_witness :
    runChecks ⟨true, true, true, []⟩
      = (.error "At least 2 video files are required", [.validate, .listDir]) := by
  have h := C8_checkOrder ⟨true, true, true, []⟩
  exact h.2.2.1 rfl (by norm_num)

/-- C9: with `shuffle = false`, two runs of the pipeline on the same decoded
audio, clip pool and job but arbitrary different random sources produce the
same cut plan and the same per-segment (clip assignment, duration, looped)
data — only the random sub-range start offsets may differ. -/
theorem C9_shuffleOffDeterminism (P : LibrosaPrims) (env : List ℚ)
    (audioDuration : ℚ) (clips : List ℚ) (j : Job) (R1 R2 : RandSource)
    (h : j.shuffleClips = false) :
    (pipeline P env audioDuration clips j R1).map Prod.fst
      = (pipeline P env audioDuration clips j R2).map Prod.fst ∧
    (pipeline P env audioDuration clips j R1).map (fun pr => pr.2.map segMeta)
      = (pipeline P env audioDuration clips j R2).map (fun pr => pr.2.map segMeta) := by
  unfold pipeline
  cases hp : computeCutPlan P env j.sensitivity audioDuration with
  | none => exact ⟨rfl, rfl⟩
  | some plan =>
    rw [h]
    refine ⟨rfl, ?_⟩
    show Except.ok ((schedule clips R1.offsets plan).map segMeta)
      = Except.ok ((schedule clips R2.offsets plan).map segMeta)
    exact congrArg Except.ok
      (scheduleAux_segMeta clips R1.offsets R2.offsets (intervalPairs plan) 0)

/-- Witness for C9: the same job run with two different offset streams. -/
theorem C9_shuffleOffDeterminism_witness :
    (pipeline wPrims [] 4 [2, 3] wJob wRand1).map Prod.fst
      = (pipeline wPrims [] 4 [2, 3] wJob wRand2).map Prod.fst ∧
    (pipeline wPrims [] 4 [2, 3] wJob wRand1).map (fun pr => pr.2.map segMeta)
      = (pipeline wPrims [] 4 [2, 3] wJob wRand2).map (fun pr => pr.2.map segMeta) :=
  C9_shuffleOffDeterminism wPrims [] 4 [2, 3] wJob wRand1 wRand2 rfl

/-- C10: when no beats and no onsets are detected, the merged timestamp list
is empty, the spacing filter's unconditional first-element access fails
(modelled as `none`), and the pipeline terminates through the error path
without producing a cut plan or output. -/
theorem C10_emptyTimesError (P : LibrosaPrims) (env : List ℚ)
    (audioDuration : ℚ) (clips : List ℚ) (j : Job) (R : RandSource)
    (hb : beatTimes P env j.sensitivity = [])
    (ho : onsetTimes P env j.sensitivity = []) :
    allTimes P env j.sensitivity = [] ∧
    filterTimes (minInterval j.sensitivity) (allTimes P env j.sensitivity) = none ∧
    pipeline P env audioDuration clips j R
      = .error "index 0 is out of bounds for axis 0 with size 0" := by
  have hall : allTimes P env j.sensitivity = [] := by
    unfold allTimes
    rw [hb, ho]
    simp
  have hplan : computeCutPlan P env j.sensitivity audioDuration = none := by
    unfold computeCutPlan cutPlan
    rw [hall]
    rfl
  refine ⟨hall, ?_, ?_⟩
  · rw [hall]
    rfl
  · unfold pipeline
    rw [hplan]

/-- Witness for C10 with primitives that detect nothing. -/
theorem C10_emptyTimesError_witness :
    allTimes ePrims [] 15 = [] ∧
    filterTimes (minInterval 15) (allTimes ePrims [] 15) = none ∧
    pipeline ePrims [] 4 [2, 3] ⟨false, 15⟩ ⟨id, fun _ => 0⟩
      = .error "index 0 is out of bounds for axis 0 with size 0" :=
  C10_emptyTimesError ePrims [] 4 [2, 3] ⟨false, 15⟩ ⟨id, fun _ => 0⟩ rfl rfl

end MusicVideoMaker
